import Mathlib

/-!
Shallow embedding of the identity/diff/watch core of the `todo-scan` tool
(`src/model.rs`, `src/diff.rs`, `src/watch.rs`, `src/cmd/diff.rs`).

Strings are modelled as lists of Unicode code points (`List Nat`); the git
subprocess and the file system are modelled as oracles returning
`Except Unit String-output`, mirroring the `Result<String>` of `git_command`
and the `std::fs` calls.  `HashSet`/`HashMap` values are modelled as lists
with membership semantics (association lists for the index map).
The line-scanning regex extraction (`scan_content`) is an external
collaborator per the spec; it is a function parameter throughout.
`str::to_lowercase` is modelled by the Unicode default case conversion:
the full table of simple lowercase mappings, the `İ` multi-code-point
expansion, and the contextual `Final_Sigma` rule over the `Cased` and
`Case_Ignorable` properties, as implemented in Rust's standard library.
-/

/-- Rust `String` / `&str`, modelled as the list of Unicode code points. -/
abbrev Str := List Nat

/-- ASCII uppercase test (code points 65..90, i.e. A..Z). -/
def isUpperAscii (n : Nat) : Bool := decide (65 ≤ n ∧ n ≤ 90)

/-- Unicode `White_Space` code points, the set used by Rust `char::is_whitespace`
(and hence by `str::trim`). -/
def isWhitespaceChar (n : Nat) : Bool :=
  decide (n = 9 ∨ n = 10 ∨ n = 11 ∨ n = 12 ∨ n = 13 ∨ n = 32 ∨ n = 133 ∨ n = 160 ∨
    n = 5760 ∨ (8192 ≤ n ∧ n ≤ 8202) ∨ n = 8232 ∨ n = 8233 ∨ n = 8239 ∨ n = 8287 ∨
    n = 12288)

/-- Rust `str::trim`: drop whitespace from both ends. -/
def trimStr (s : Str) : Str :=
  ((s.dropWhile isWhitespaceChar).reverse.dropWhile isWhitespaceChar).reverse

/-- The Unicode simple lowercase mappings outside ASCII (code point, image),
the single-code-point entries of the conversion table used by Rust
`char::to_lowercase` (split into chunks of at most 200 entries). -/
def lowerPairs0 : List (Nat × Nat) := [
  (192, 224), (193, 225), (194, 226), (195, 227), (196, 228), (197, 229),
  (198, 230), (199, 231), (200, 232), (201, 233), (202, 234), (203, 235),
  (204, 236), (205, 237), (206, 238), (207, 239), (208, 240), (209, 241),
  (210, 242), (211, 243), (212, 244), (213, 245), (214, 246), (216, 248),
  (217, 249), (218, 250), (219, 251), (220, 252), (221, 253), (222, 254),
  (256, 257), (258, 259), (260, 261), (262, 263), (264, 265), (266, 267),
  (268, 269), (270, 271), (272, 273), (274, 275), (276, 277), (278, 279),
  (280, 281), (282, 283), (284, 285), (286, 287), (288, 289), (290, 291),
  (292, 293), (294, 295), (296, 297), (298, 299), (300, 301), (302, 303),
  (306, 307), (308, 309), (310, 311), (313, 314), (315, 316), (317, 318),
  (319, 320), (321, 322), (323, 324), (325, 326), (327, 328), (330, 331),
  (332, 333), (334, 335), (336, 337), (338, 339), (340, 341), (342, 343),
  (344, 345), (346, 347), (348, 349), (350, 351), (352, 353), (354, 355),
  (356, 357), (358, 359), (360, 361), (362, 363), (364, 365), (366, 367),
  (368, 369), (370, 371), (372, 373), (374, 375), (376, 255), (377, 378),
  (379, 380), (381, 382), (385, 595), (386, 387), (388, 389), (390, 596),
  (391, 392), (393, 598), (394, 599), (395, 396), (398, 477), (399, 601),
  (400, 603), (401, 402), (403, 608), (404, 611), (406, 617), (407, 616),
  (408, 409), (412, 623), (413, 626), (415, 629), (416, 417), (418, 419),
  (420, 421), (422, 640), (423, 424), (425, 643), (428, 429), (430, 648),
  (431, 432), (433, 650), (434, 651), (435, 436), (437, 438), (439, 658),
  (440, 441), (444, 445), (452, 454), (453, 454), (455, 457), (456, 457),
  (458, 460), (459, 460), (461, 462), (463, 464), (465, 466), (467, 468),
  (469, 470), (471, 472), (473, 474), (475, 476), (478, 479), (480, 481),
  (482, 483), (484, 485), (486, 487), (488, 489), (490, 491), (492, 493),
  (494, 495), (497, 499), (498, 499), (500, 501), (502, 405), (503, 447),
  (504, 505), (506, 507), (508, 509), (510, 511), (512, 513), (514, 515),
  (516, 517), (518, 519), (520, 521), (522, 523), (524, 525), (526, 527),
  (528, 529), (530, 531), (532, 533), (534, 535), (536, 537), (538, 539),
  (540, 541), (542, 543), (544, 414), (546, 547), (548, 549), (550, 551),
  (552, 553), (554, 555), (556, 557), (558, 559), (560, 561), (562, 563),
  (570, 11365), (571, 572), (573, 410), (574, 11366), (577, 578), (579, 384),
  (580, 649), (581, 652), (582, 583), (584, 585), (586, 587), (588, 589),
  (590, 591), (880, 881)
]

def lowerPairs1 : List (Nat × Nat) := [
  (882, 883), (886, 887), (895, 1011), (902, 940), (904, 941), (905, 942),
  (906, 943), (908, 972), (910, 973), (911, 974), (913, 945), (914, 946),
  (915, 947), (916, 948), (917, 949), (918, 950), (919, 951), (920, 952),
  (921, 953), (922, 954), (923, 955), (924, 956), (925, 957), (926, 958),
  (927, 959), (928, 960), (929, 961), (931, 963), (932, 964), (933, 965),
  (934, 966), (935, 967), (936, 968), (937, 969), (938, 970), (939, 971),
  (975, 983), (984, 985), (986, 987), (988, 989), (990, 991), (992, 993),
  (994, 995), (996, 997), (998, 999), (1000, 1001), (1002, 1003), (1004, 1005),
  (1006, 1007), (1012, 952), (1015, 1016), (1017, 1010), (1018, 1019), (1021, 891),
  (1022, 892), (1023, 893), (1024, 1104), (1025, 1105), (1026, 1106), (1027, 1107),
  (1028, 1108), (1029, 1109), (1030, 1110), (1031, 1111), (1032, 1112), (1033, 1113),
  (1034, 1114), (1035, 1115), (1036, 1116), (1037, 1117), (1038, 1118), (1039, 1119),
  (1040, 1072), (1041, 1073), (1042, 1074), (1043, 1075), (1044, 1076), (1045, 1077),
  (1046, 1078), (1047, 1079), (1048, 1080), (1049, 1081), (1050, 1082), (1051, 1083),
  (1052, 1084), (1053, 1085), (1054, 1086), (1055, 1087), (1056, 1088), (1057, 1089),
  (1058, 1090), (1059, 1091), (1060, 1092), (1061, 1093), (1062, 1094), (1063, 1095),
  (1064, 1096), (1065, 1097), (1066, 1098), (1067, 1099), (1068, 1100), (1069, 1101),
  (1070, 1102), (1071, 1103), (1120, 1121), (1122, 1123), (1124, 1125), (1126, 1127),
  (1128, 1129), (1130, 1131), (1132, 1133), (1134, 1135), (1136, 1137), (1138, 1139),
  (1140, 1141), (1142, 1143), (1144, 1145), (1146, 1147), (1148, 1149), (1150, 1151),
  (1152, 1153), (1162, 1163), (1164, 1165), (1166, 1167), (1168, 1169), (1170, 1171),
  (1172, 1173), (1174, 1175), (1176, 1177), (1178, 1179), (1180, 1181), (1182, 1183),
  (1184, 1185), (1186, 1187), (1188, 1189), (1190, 1191), (1192, 1193), (1194, 1195),
  (1196, 1197), (1198, 1199), (1200, 1201), (1202, 1203), (1204, 1205), (1206, 1207),
  (1208, 1209), (1210, 1211), (1212, 1213), (1214, 1215), (1216, 1231), (1217, 1218),
  (1219, 1220), (1221, 1222), (1223, 1224), (1225, 1226), (1227, 1228), (1229, 1230),
  (1232, 1233), (1234, 1235), (1236, 1237), (1238, 1239), (1240, 1241), (1242, 1243),
  (1244, 1245), (1246, 1247), (1248, 1249), (1250, 1251), (1252, 1253), (1254, 1255),
  (1256, 1257), (1258, 1259), (1260, 1261), (1262, 1263), (1264, 1265), (1266, 1267),
  (1268, 1269), (1270, 1271), (1272, 1273), (1274, 1275), (1276, 1277), (1278, 1279),
  (1280, 1281), (1282, 1283), (1284, 1285), (1286, 1287), (1288, 1289), (1290, 1291),
  (1292, 1293), (1294, 1295), (1296, 1297), (1298, 1299), (1300, 1301), (1302, 1303),
  (1304, 1305), (1306, 1307), (1308, 1309), (1310, 1311), (1312, 1313), (1314, 1315),
  (1316, 1317), (1318, 1319)
]

def lowerPairs2 : List (Nat × Nat) := [
  (1320, 1321), (1322, 1323), (1324, 1325), (1326, 1327), (1329, 1377), (1330, 1378),
  (1331, 1379), (1332, 1380), (1333, 1381), (1334, 1382), (1335, 1383), (1336, 1384),
  (1337, 1385), (1338, 1386), (1339, 1387), (1340, 1388), (1341, 1389), (1342, 1390),
  (1343, 1391), (1344, 1392), (1345, 1393), (1346, 1394), (1347, 1395), (1348, 1396),
  (1349, 1397), (1350, 1398), (1351, 1399), (1352, 1400), (1353, 1401), (1354, 1402),
  (1355, 1403), (1356, 1404), (1357, 1405), (1358, 1406), (1359, 1407), (1360, 1408),
  (1361, 1409), (1362, 1410), (1363, 1411), (1364, 1412), (1365, 1413), (1366, 1414),
  (4256, 11520), (4257, 11521), (4258, 11522), (4259, 11523), (4260, 11524), (4261, 11525),
  (4262, 11526), (4263, 11527), (4264, 11528), (4265, 11529), (4266, 11530), (4267, 11531),
  (4268, 11532), (4269, 11533), (4270, 11534), (4271, 11535), (4272, 11536), (4273, 11537),
  (4274, 11538), (4275, 11539), (4276, 11540), (4277, 11541), (4278, 11542), (4279, 11543),
  (4280, 11544), (4281, 11545), (4282, 11546), (4283, 11547), (4284, 11548), (4285, 11549),
  (4286, 11550), (4287, 11551), (4288, 11552), (4289, 11553), (4290, 11554), (4291, 11555),
  (4292, 11556), (4293, 11557), (4295, 11559), (4301, 11565), (5024, 43888), (5025, 43889),
  (5026, 43890), (5027, 43891), (5028, 43892), (5029, 43893), (5030, 43894), (5031, 43895),
  (5032, 43896), (5033, 43897), (5034, 43898), (5035, 43899), (5036, 43900), (5037, 43901),
  (5038, 43902), (5039, 43903), (5040, 43904), (5041, 43905), (5042, 43906), (5043, 43907),
  (5044, 43908), (5045, 43909), (5046, 43910), (5047, 43911), (5048, 43912), (5049, 43913),
  (5050, 43914), (5051, 43915), (5052, 43916), (5053, 43917), (5054, 43918), (5055, 43919),
  (5056, 43920), (5057, 43921), (5058, 43922), (5059, 43923), (5060, 43924), (5061, 43925),
  (5062, 43926), (5063, 43927), (5064, 43928), (5065, 43929), (5066, 43930), (5067, 43931),
  (5068, 43932), (5069, 43933), (5070, 43934), (5071, 43935), (5072, 43936), (5073, 43937),
  (5074, 43938), (5075, 43939), (5076, 43940), (5077, 43941), (5078, 43942), (5079, 43943),
  (5080, 43944), (5081, 43945), (5082, 43946), (5083, 43947), (5084, 43948), (5085, 43949),
  (5086, 43950), (5087, 43951), (5088, 43952), (5089, 43953), (5090, 43954), (5091, 43955),
  (5092, 43956), (5093, 43957), (5094, 43958), (5095, 43959), (5096, 43960), (5097, 43961),
  (5098, 43962), (5099, 43963), (5100, 43964), (5101, 43965), (5102, 43966), (5103, 43967),
  (5104, 5112), (5105, 5113), (5106, 5114), (5107, 5115), (5108, 5116), (5109, 5117),
  (7312, 4304), (7313, 4305), (7314, 4306), (7315, 4307), (7316, 4308), (7317, 4309),
  (7318, 4310), (7319, 4311), (7320, 4312), (7321, 4313), (7322, 4314), (7323, 4315),
  (7324, 4316), (7325, 4317), (7326, 4318), (7327, 4319), (7328, 4320), (7329, 4321),
  (7330, 4322), (7331, 4323), (7332, 4324), (7333, 4325), (7334, 4326), (7335, 4327),
  (7336, 4328), (7337, 4329), (7338, 4330), (7339, 4331), (7340, 4332), (7341, 4333),
  (7342, 4334), (7343, 4335)
]

def lowerPairs3 : List (Nat × Nat) := [
  (7344, 4336), (7345, 4337), (7346, 4338), (7347, 4339), (7348, 4340), (7349, 4341),
  (7350, 4342), (7351, 4343), (7352, 4344), (7353, 4345), (7354, 4346), (7357, 4349),
  (7358, 4350), (7359, 4351), (7680, 7681), (7682, 7683), (7684, 7685), (7686, 7687),
  (7688, 7689), (7690, 7691), (7692, 7693), (7694, 7695), (7696, 7697), (7698, 7699),
  (7700, 7701), (7702, 7703), (7704, 7705), (7706, 7707), (7708, 7709), (7710, 7711),
  (7712, 7713), (7714, 7715), (7716, 7717), (7718, 7719), (7720, 7721), (7722, 7723),
  (7724, 7725), (7726, 7727), (7728, 7729), (7730, 7731), (7732, 7733), (7734, 7735),
  (7736, 7737), (7738, 7739), (7740, 7741), (7742, 7743), (7744, 7745), (7746, 7747),
  (7748, 7749), (7750, 7751), (7752, 7753), (7754, 7755), (7756, 7757), (7758, 7759),
  (7760, 7761), (7762, 7763), (7764, 7765), (7766, 7767), (7768, 7769), (7770, 7771),
  (7772, 7773), (7774, 7775), (7776, 7777), (7778, 7779), (7780, 7781), (7782, 7783),
  (7784, 7785), (7786, 7787), (7788, 7789), (7790, 7791), (7792, 7793), (7794, 7795),
  (7796, 7797), (7798, 7799), (7800, 7801), (7802, 7803), (7804, 7805), (7806, 7807),
  (7808, 7809), (7810, 7811), (7812, 7813), (7814, 7815), (7816, 7817), (7818, 7819),
  (7820, 7821), (7822, 7823), (7824, 7825), (7826, 7827), (7828, 7829), (7838, 223),
  (7840, 7841), (7842, 7843), (7844, 7845), (7846, 7847), (7848, 7849), (7850, 7851),
  (7852, 7853), (7854, 7855), (7856, 7857), (7858, 7859), (7860, 7861), (7862, 7863),
  (7864, 7865), (7866, 7867), (7868, 7869), (7870, 7871), (7872, 7873), (7874, 7875),
  (7876, 7877), (7878, 7879), (7880, 7881), (7882, 7883), (7884, 7885), (7886, 7887),
  (7888, 7889), (7890, 7891), (7892, 7893), (7894, 7895), (7896, 7897), (7898, 7899),
  (7900, 7901), (7902, 7903), (7904, 7905), (7906, 7907), (7908, 7909), (7910, 7911),
  (7912, 7913), (7914, 7915), (7916, 7917), (7918, 7919), (7920, 7921), (7922, 7923),
  (7924, 7925), (7926, 7927), (7928, 7929), (7930, 7931), (7932, 7933), (7934, 7935),
  (7944, 7936), (7945, 7937), (7946, 7938), (7947, 7939), (7948, 7940), (7949, 7941),
  (7950, 7942), (7951, 7943), (7960, 7952), (7961, 7953), (7962, 7954), (7963, 7955),
  (7964, 7956), (7965, 7957), (7976, 7968), (7977, 7969), (7978, 7970), (7979, 7971),
  (7980, 7972), (7981, 7973), (7982, 7974), (7983, 7975), (7992, 7984), (7993, 7985),
  (7994, 7986), (7995, 7987), (7996, 7988), (7997, 7989), (7998, 7990), (7999, 7991),
  (8008, 8000), (8009, 8001), (8010, 8002), (8011, 8003), (8012, 8004), (8013, 8005),
  (8025, 8017), (8027, 8019), (8029, 8021), (8031, 8023), (8040, 8032), (8041, 8033),
  (8042, 8034), (8043, 8035), (8044, 8036), (8045, 8037), (8046, 8038), (8047, 8039),
  (8072, 8064), (8073, 8065), (8074, 8066), (8075, 8067), (8076, 8068), (8077, 8069),
  (8078, 8070), (8079, 8071), (8088, 8080), (8089, 8081), (8090, 8082), (8091, 8083),
  (8092, 8084), (8093, 8085)
]

def lowerPairs4 : List (Nat × Nat) := [
  (8094, 8086), (8095, 8087), (8104, 8096), (8105, 8097), (8106, 8098), (8107, 8099),
  (8108, 8100), (8109, 8101), (8110, 8102), (8111, 8103), (8120, 8112), (8121, 8113),
  (8122, 8048), (8123, 8049), (8124, 8115), (8136, 8050), (8137, 8051), (8138, 8052),
  (8139, 8053), (8140, 8131), (8152, 8144), (8153, 8145), (8154, 8054), (8155, 8055),
  (8168, 8160), (8169, 8161), (8170, 8058), (8171, 8059), (8172, 8165), (8184, 8056),
  (8185, 8057), (8186, 8060), (8187, 8061), (8188, 8179), (8486, 969), (8490, 107),
  (8491, 229), (8498, 8526), (8544, 8560), (8545, 8561), (8546, 8562), (8547, 8563),
  (8548, 8564), (8549, 8565), (8550, 8566), (8551, 8567), (8552, 8568), (8553, 8569),
  (8554, 8570), (8555, 8571), (8556, 8572), (8557, 8573), (8558, 8574), (8559, 8575),
  (8579, 8580), (9398, 9424), (9399, 9425), (9400, 9426), (9401, 9427), (9402, 9428),
  (9403, 9429), (9404, 9430), (9405, 9431), (9406, 9432), (9407, 9433), (9408, 9434),
  (9409, 9435), (9410, 9436), (9411, 9437), (9412, 9438), (9413, 9439), (9414, 9440),
  (9415, 9441), (9416, 9442), (9417, 9443), (9418, 9444), (9419, 9445), (9420, 9446),
  (9421, 9447), (9422, 9448), (9423, 9449), (11264, 11312), (11265, 11313), (11266, 11314),
  (11267, 11315), (11268, 11316), (11269, 11317), (11270, 11318), (11271, 11319), (11272, 11320),
  (11273, 11321), (11274, 11322), (11275, 11323), (11276, 11324), (11277, 11325), (11278, 11326),
  (11279, 11327), (11280, 11328), (11281, 11329), (11282, 11330), (11283, 11331), (11284, 11332),
  (11285, 11333), (11286, 11334), (11287, 11335), (11288, 11336), (11289, 11337), (11290, 11338),
  (11291, 11339), (11292, 11340), (11293, 11341), (11294, 11342), (11295, 11343), (11296, 11344),
  (11297, 11345), (11298, 11346), (11299, 11347), (11300, 11348), (11301, 11349), (11302, 11350),
  (11303, 11351), (11304, 11352), (11305, 11353), (11306, 11354), (11307, 11355), (11308, 11356),
  (11309, 11357), (11310, 11358), (11311, 11359), (11360, 11361), (11362, 619), (11363, 7549),
  (11364, 637), (11367, 11368), (11369, 11370), (11371, 11372), (11373, 593), (11374, 625),
  (11375, 592), (11376, 594), (11378, 11379), (11381, 11382), (11390, 575), (11391, 576),
  (11392, 11393), (11394, 11395), (11396, 11397), (11398, 11399), (11400, 11401), (11402, 11403),
  (11404, 11405), (11406, 11407), (11408, 11409), (11410, 11411), (11412, 11413), (11414, 11415),
  (11416, 11417), (11418, 11419), (11420, 11421), (11422, 11423), (11424, 11425), (11426, 11427),
  (11428, 11429), (11430, 11431), (11432, 11433), (11434, 11435), (11436, 11437), (11438, 11439),
  (11440, 11441), (11442, 11443), (11444, 11445), (11446, 11447), (11448, 11449), (11450, 11451),
  (11452, 11453), (11454, 11455), (11456, 11457), (11458, 11459), (11460, 11461), (11462, 11463),
  (11464, 11465), (11466, 11467), (11468, 11469), (11470, 11471), (11472, 11473), (11474, 11475),
  (11476, 11477), (11478, 11479), (11480, 11481), (11482, 11483), (11484, 11485), (11486, 11487),
  (11488, 11489), (11490, 11491), (11499, 11500), (11501, 11502), (11506, 11507), (42560, 42561),
  (42562, 42563), (42564, 42565)
]

def lowerPairs5 : List (Nat × Nat) := [
  (42566, 42567), (42568, 42569), (42570, 42571), (42572, 42573), (42574, 42575), (42576, 42577),
  (42578, 42579), (42580, 42581), (42582, 42583), (42584, 42585), (42586, 42587), (42588, 42589),
  (42590, 42591), (42592, 42593), (42594, 42595), (42596, 42597), (42598, 42599), (42600, 42601),
  (42602, 42603), (42604, 42605), (42624, 42625), (42626, 42627), (42628, 42629), (42630, 42631),
  (42632, 42633), (42634, 42635), (42636, 42637), (42638, 42639), (42640, 42641), (42642, 42643),
  (42644, 42645), (42646, 42647), (42648, 42649), (42650, 42651), (42786, 42787), (42788, 42789),
  (42790, 42791), (42792, 42793), (42794, 42795), (42796, 42797), (42798, 42799), (42802, 42803),
  (42804, 42805), (42806, 42807), (42808, 42809), (42810, 42811), (42812, 42813), (42814, 42815),
  (42816, 42817), (42818, 42819), (42820, 42821), (42822, 42823), (42824, 42825), (42826, 42827),
  (42828, 42829), (42830, 42831), (42832, 42833), (42834, 42835), (42836, 42837), (42838, 42839),
  (42840, 42841), (42842, 42843), (42844, 42845), (42846, 42847), (42848, 42849), (42850, 42851),
  (42852, 42853), (42854, 42855), (42856, 42857), (42858, 42859), (42860, 42861), (42862, 42863),
  (42873, 42874), (42875, 42876), (42877, 7545), (42878, 42879), (42880, 42881), (42882, 42883),
  (42884, 42885), (42886, 42887), (42891, 42892), (42893, 613), (42896, 42897), (42898, 42899),
  (42902, 42903), (42904, 42905), (42906, 42907), (42908, 42909), (42910, 42911), (42912, 42913),
  (42914, 42915), (42916, 42917), (42918, 42919), (42920, 42921), (42922, 614), (42923, 604),
  (42924, 609), (42925, 620), (42926, 618), (42928, 670), (42929, 647), (42930, 669),
  (42931, 43859), (42932, 42933), (42934, 42935), (42936, 42937), (42938, 42939), (42940, 42941),
  (42942, 42943), (42944, 42945), (42946, 42947), (42948, 42900), (42949, 642), (42950, 7566),
  (42951, 42952), (42953, 42954), (42960, 42961), (42966, 42967), (42968, 42969), (42997, 42998),
  (65313, 65345), (65314, 65346), (65315, 65347), (65316, 65348), (65317, 65349), (65318, 65350),
  (65319, 65351), (65320, 65352), (65321, 65353), (65322, 65354), (65323, 65355), (65324, 65356),
  (65325, 65357), (65326, 65358), (65327, 65359), (65328, 65360), (65329, 65361), (65330, 65362),
  (65331, 65363), (65332, 65364), (65333, 65365), (65334, 65366), (65335, 65367), (65336, 65368),
  (65337, 65369), (65338, 65370), (66560, 66600), (66561, 66601), (66562, 66602), (66563, 66603),
  (66564, 66604), (66565, 66605), (66566, 66606), (66567, 66607), (66568, 66608), (66569, 66609),
  (66570, 66610), (66571, 66611), (66572, 66612), (66573, 66613), (66574, 66614), (66575, 66615),
  (66576, 66616), (66577, 66617), (66578, 66618), (66579, 66619), (66580, 66620), (66581, 66621),
  (66582, 66622), (66583, 66623), (66584, 66624), (66585, 66625), (66586, 66626), (66587, 66627),
  (66588, 66628), (66589, 66629), (66590, 66630), (66591, 66631), (66592, 66632), (66593, 66633),
  (66594, 66634), (66595, 66635), (66596, 66636), (66597, 66637), (66598, 66638), (66599, 66639),
  (66736, 66776), (66737, 66777), (66738, 66778), (66739, 66779), (66740, 66780), (66741, 66781),
  (66742, 66782), (66743, 66783), (66744, 66784), (66745, 66785), (66746, 66786), (66747, 66787),
  (66748, 66788), (66749, 66789)
]

def lowerPairs6 : List (Nat × Nat) := [
  (66750, 66790), (66751, 66791), (66752, 66792), (66753, 66793), (66754, 66794), (66755, 66795),
  (66756, 66796), (66757, 66797), (66758, 66798), (66759, 66799), (66760, 66800), (66761, 66801),
  (66762, 66802), (66763, 66803), (66764, 66804), (66765, 66805), (66766, 66806), (66767, 66807),
  (66768, 66808), (66769, 66809), (66770, 66810), (66771, 66811), (66928, 66967), (66929, 66968),
  (66930, 66969), (66931, 66970), (66932, 66971), (66933, 66972), (66934, 66973), (66935, 66974),
  (66936, 66975), (66937, 66976), (66938, 66977), (66940, 66979), (66941, 66980), (66942, 66981),
  (66943, 66982), (66944, 66983), (66945, 66984), (66946, 66985), (66947, 66986), (66948, 66987),
  (66949, 66988), (66950, 66989), (66951, 66990), (66952, 66991), (66953, 66992), (66954, 66993),
  (66956, 66995), (66957, 66996), (66958, 66997), (66959, 66998), (66960, 66999), (66961, 67000),
  (66962, 67001), (66964, 67003), (66965, 67004), (68736, 68800), (68737, 68801), (68738, 68802),
  (68739, 68803), (68740, 68804), (68741, 68805), (68742, 68806), (68743, 68807), (68744, 68808),
  (68745, 68809), (68746, 68810), (68747, 68811), (68748, 68812), (68749, 68813), (68750, 68814),
  (68751, 68815), (68752, 68816), (68753, 68817), (68754, 68818), (68755, 68819), (68756, 68820),
  (68757, 68821), (68758, 68822), (68759, 68823), (68760, 68824), (68761, 68825), (68762, 68826),
  (68763, 68827), (68764, 68828), (68765, 68829), (68766, 68830), (68767, 68831), (68768, 68832),
  (68769, 68833), (68770, 68834), (68771, 68835), (68772, 68836), (68773, 68837), (68774, 68838),
  (68775, 68839), (68776, 68840), (68777, 68841), (68778, 68842), (68779, 68843), (68780, 68844),
  (68781, 68845), (68782, 68846), (68783, 68847), (68784, 68848), (68785, 68849), (68786, 68850),
  (71840, 71872), (71841, 71873), (71842, 71874), (71843, 71875), (71844, 71876), (71845, 71877),
  (71846, 71878), (71847, 71879), (71848, 71880), (71849, 71881), (71850, 71882), (71851, 71883),
  (71852, 71884), (71853, 71885), (71854, 71886), (71855, 71887), (71856, 71888), (71857, 71889),
  (71858, 71890), (71859, 71891), (71860, 71892), (71861, 71893), (71862, 71894), (71863, 71895),
  (71864, 71896), (71865, 71897), (71866, 71898), (71867, 71899), (71868, 71900), (71869, 71901),
  (71870, 71902), (71871, 71903), (93760, 93792), (93761, 93793), (93762, 93794), (93763, 93795),
  (93764, 93796), (93765, 93797), (93766, 93798), (93767, 93799), (93768, 93800), (93769, 93801),
  (93770, 93802), (93771, 93803), (93772, 93804), (93773, 93805), (93774, 93806), (93775, 93807),
  (93776, 93808), (93777, 93809), (93778, 93810), (93779, 93811), (93780, 93812), (93781, 93813),
  (93782, 93814), (93783, 93815), (93784, 93816), (93785, 93817), (93786, 93818), (93787, 93819),
  (93788, 93820), (93789, 93821), (93790, 93822), (93791, 93823), (125184, 125218), (125185, 125219),
  (125186, 125220), (125187, 125221), (125188, 125222), (125189, 125223), (125190, 125224), (125191, 125225),
  (125192, 125226), (125193, 125227), (125194, 125228), (125195, 125229), (125196, 125230), (125197, 125231),
  (125198, 125232), (125199, 125233), (125200, 125234), (125201, 125235), (125202, 125236), (125203, 125237),
  (125204, 125238), (125205, 125239), (125206, 125240), (125207, 125241), (125208, 125242), (125209, 125243),
  (125210, 125244), (125211, 125245)
]

def lowerPairs7 : List (Nat × Nat) := [
  (125212, 125246), (125213, 125247), (125214, 125248), (125215, 125249), (125216, 125250), (125217, 125251)
]

/-- All non-ASCII single-code-point lowercase mappings. -/
def lowerPairs : List (Nat × Nat) :=
  lowerPairs0 ++ lowerPairs1 ++ lowerPairs2 ++ lowerPairs3 ++ lowerPairs4 ++ lowerPairs5 ++ lowerPairs6 ++ lowerPairs7

/-- Rust `char::to_lowercase` for one code point: ASCII A..Z shift by 32
(also the ASCII fast path of `str::to_lowercase`), the one multi-code-point
entry `İ` (304) ↦ `i` + combining dot above (105, 775), then the table of
simple mappings; every unmapped code point is returned unchanged. -/
def lowerCharMap (n : Nat) : List Nat :=
  if 65 ≤ n ∧ n ≤ 90 then [n + 32]
  else if n = 304 then [105, 775]
  else
    match lowerPairs.find? (fun p => decide (p.1 = n)) with
    | some p => [p.2]
    | none => [n]

/-- The Unicode `Cased` code points as closed ranges, the property consulted
by the `Final_Sigma` context rule of Rust `str::to_lowercase`. -/
def casedRanges : List (Nat × Nat) := [
  (65, 90), (97, 122), (170, 170), (181, 181), (186, 186),
  (192, 214), (216, 246), (248, 442), (444, 447), (452, 659),
  (661, 687), (880, 883), (886, 887), (891, 893), (895, 895),
  (902, 902), (904, 906), (908, 908), (910, 929), (931, 1013),
  (1015, 1153), (1162, 1327), (1329, 1366), (1376, 1416), (4256, 4293),
  (4295, 4295), (4301, 4301), (4304, 4346), (4349, 4351), (5024, 5109),
  (5112, 5117), (7296, 7304), (7312, 7354), (7357, 7359), (7424, 7467),
  (7531, 7543), (7545, 7578), (7680, 7957), (7960, 7965), (7968, 8005),
  (8008, 8013), (8016, 8023), (8025, 8025), (8027, 8027), (8029, 8029),
  (8031, 8061), (8064, 8116), (8118, 8124), (8126, 8126), (8130, 8132),
  (8134, 8140), (8144, 8147), (8150, 8155), (8160, 8172), (8178, 8180),
  (8182, 8188), (8450, 8450), (8455, 8455), (8458, 8467), (8469, 8469),
  (8473, 8477), (8484, 8484), (8486, 8486), (8488, 8488), (8490, 8493),
  (8495, 8500), (8505, 8505), (8508, 8511), (8517, 8521), (8526, 8526),
  (8544, 8575), (8579, 8580), (9398, 9449), (11264, 11387), (11390, 11492),
  (11499, 11502), (11506, 11507), (11520, 11557), (11559, 11559), (11565, 11565),
  (42560, 42605), (42624, 42651), (42786, 42863), (42865, 42887), (42891, 42894),
  (42896, 42954), (42960, 42961), (42963, 42963), (42965, 42969), (42997, 42998),
  (43002, 43002), (43824, 43866), (43872, 43880), (43888, 43967), (64256, 64262),
  (64275, 64279), (65313, 65338), (65345, 65370), (66560, 66639), (66736, 66771),
  (66776, 66811), (66928, 66938), (66940, 66954), (66956, 66962), (66964, 66965),
  (66967, 66977), (66979, 66993), (66995, 67001), (67003, 67004), (68736, 68786),
  (68800, 68850), (71840, 71903), (93760, 93823), (119808, 119892), (119894, 119964),
  (119966, 119967), (119970, 119970), (119973, 119974), (119977, 119980), (119982, 119993),
  (119995, 119995), (119997, 120003), (120005, 120069), (120071, 120074), (120077, 120084),
  (120086, 120092), (120094, 120121), (120123, 120126), (120128, 120132), (120134, 120134),
  (120138, 120144), (120146, 120485), (120488, 120512), (120514, 120538), (120540, 120570),
  (120572, 120596), (120598, 120628), (120630, 120654), (120656, 120686), (120688, 120712),
  (120714, 120744), (120746, 120770), (120772, 120779), (122624, 122633), (122635, 122654),
  (125184, 125251), (127280, 127305), (127312, 127337), (127344, 127369)
]

/-- The Unicode `Case_Ignorable` code points as closed ranges, the other
property consulted by the `Final_Sigma` context rule (split in chunks). -/
def ciRanges0 : List (Nat × Nat) := [
  (39, 39), (46, 46), (58, 58), (94, 94), (96, 96),
  (168, 168), (173, 173), (175, 175), (180, 180), (183, 184),
  (688, 879), (884, 885), (890, 890), (900, 901), (903, 903),
  (1155, 1161), (1369, 1369), (1375, 1375), (1425, 1469), (1471, 1471),
  (1473, 1474), (1476, 1477), (1479, 1479), (1524, 1524), (1536, 1541),
  (1552, 1562), (1564, 1564), (1600, 1600), (1611, 1631), (1648, 1648),
  (1750, 1757), (1759, 1768), (1770, 1773), (1807, 1807), (1809, 1809),
  (1840, 1866), (1958, 1968), (2027, 2037), (2042, 2042), (2045, 2045),
  (2070, 2093), (2137, 2139), (2184, 2184), (2192, 2193), (2200, 2207),
  (2249, 2306), (2362, 2362), (2364, 2364), (2369, 2376), (2381, 2381),
  (2385, 2391), (2402, 2403), (2417, 2417), (2433, 2433), (2492, 2492),
  (2497, 2500), (2509, 2509), (2530, 2531), (2558, 2558), (2561, 2562),
  (2620, 2620), (2625, 2626), (2631, 2632), (2635, 2637), (2641, 2641),
  (2672, 2673), (2677, 2677), (2689, 2690), (2748, 2748), (2753, 2757),
  (2759, 2760), (2765, 2765), (2786, 2787), (2810, 2815), (2817, 2817),
  (2876, 2876), (2879, 2879), (2881, 2884), (2893, 2893), (2901, 2902),
  (2914, 2915), (2946, 2946), (3008, 3008), (3021, 3021), (3072, 3072),
  (3076, 3076), (3132, 3132), (3134, 3136), (3142, 3144), (3146, 3149),
  (3157, 3158), (3170, 3171), (3201, 3201), (3260, 3260), (3263, 3263),
  (3270, 3270), (3276, 3277), (3298, 3299), (3328, 3329), (3387, 3388),
  (3393, 3396), (3405, 3405), (3426, 3427), (3457, 3457), (3530, 3530),
  (3538, 3540), (3542, 3542), (3633, 3633), (3636, 3642), (3654, 3662),
  (3761, 3761), (3764, 3772), (3782, 3782), (3784, 3789), (3864, 3865),
  (3893, 3893), (3895, 3895), (3897, 3897), (3953, 3966), (3968, 3972),
  (3974, 3975), (3981, 3991), (3993, 4028), (4038, 4038), (4141, 4144),
  (4146, 4151), (4153, 4154), (4157, 4158), (4184, 4185), (4190, 4192),
  (4209, 4212), (4226, 4226), (4229, 4230), (4237, 4237), (4253, 4253),
  (4348, 4348), (4957, 4959), (5906, 5908), (5938, 5939), (5970, 5971),
  (6002, 6003), (6068, 6069), (6071, 6077), (6086, 6086), (6089, 6099),
  (6103, 6103), (6109, 6109), (6155, 6159), (6211, 6211), (6277, 6278)
]

def ciRanges1 : List (Nat × Nat) := [
  (6313, 6313), (6432, 6434), (6439, 6440), (6450, 6450), (6457, 6459),
  (6679, 6680), (6683, 6683), (6742, 6742), (6744, 6750), (6752, 6752),
  (6754, 6754), (6757, 6764), (6771, 6780), (6783, 6783), (6823, 6823),
  (6832, 6862), (6912, 6915), (6964, 6964), (6966, 6970), (6972, 6972),
  (6978, 6978), (7019, 7027), (7040, 7041), (7074, 7077), (7080, 7081),
  (7083, 7085), (7142, 7142), (7144, 7145), (7149, 7149), (7151, 7153),
  (7212, 7219), (7222, 7223), (7288, 7293), (7376, 7378), (7380, 7392),
  (7394, 7400), (7405, 7405), (7412, 7412), (7416, 7417), (7468, 7530),
  (7544, 7544), (7579, 7679), (8125, 8125), (8127, 8129), (8141, 8143),
  (8157, 8159), (8173, 8175), (8189, 8190), (8203, 8207), (8216, 8217),
  (8228, 8228), (8231, 8231), (8234, 8238), (8288, 8292), (8294, 8303),
  (8305, 8305), (8319, 8319), (8336, 8348), (8400, 8432), (11388, 11389),
  (11503, 11505), (11631, 11631), (11647, 11647), (11744, 11775), (11823, 11823),
  (12293, 12293), (12330, 12333), (12337, 12341), (12347, 12347), (12441, 12446),
  (12540, 12542), (40981, 40981), (42232, 42237), (42508, 42508), (42607, 42610),
  (42612, 42621), (42623, 42623), (42652, 42655), (42736, 42737), (42752, 42785),
  (42864, 42864), (42888, 42890), (42994, 42996), (43000, 43001), (43010, 43010),
  (43014, 43014), (43019, 43019), (43045, 43046), (43052, 43052), (43204, 43205),
  (43232, 43249), (43263, 43263), (43302, 43309), (43335, 43345), (43392, 43394),
  (43443, 43443), (43446, 43449), (43452, 43453), (43471, 43471), (43493, 43494),
  (43561, 43566), (43569, 43570), (43573, 43574), (43587, 43587), (43596, 43596),
  (43632, 43632), (43644, 43644), (43696, 43696), (43698, 43700), (43703, 43704),
  (43710, 43711), (43713, 43713), (43741, 43741), (43756, 43757), (43763, 43764),
  (43766, 43766), (43867, 43871), (43881, 43883), (44005, 44005), (44008, 44008),
  (44013, 44013), (64286, 64286), (64434, 64450), (65024, 65039), (65043, 65043),
  (65056, 65071), (65106, 65106), (65109, 65109), (65279, 65279), (65287, 65287),
  (65294, 65294), (65306, 65306), (65342, 65342), (65344, 65344), (65392, 65392),
  (65438, 65439), (65507, 65507), (65529, 65531), (66045, 66045), (66272, 66272),
  (66422, 66426), (67456, 67461), (67463, 67504), (67506, 67514), (68097, 68099),
  (68101, 68102), (68108, 68111), (68152, 68154), (68159, 68159), (68325, 68326)
]

def ciRanges2 : List (Nat × Nat) := [
  (68900, 68903), (69291, 69292), (69446, 69456), (69506, 69509), (69633, 69633),
  (69688, 69702), (69744, 69744), (69747, 69748), (69759, 69761), (69811, 69814),
  (69817, 69818), (69821, 69821), (69826, 69826), (69837, 69837), (69888, 69890),
  (69927, 69931), (69933, 69940), (70003, 70003), (70016, 70017), (70070, 70078),
  (70089, 70092), (70095, 70095), (70191, 70193), (70196, 70196), (70198, 70199),
  (70206, 70206), (70367, 70367), (70371, 70378), (70400, 70401), (70459, 70460),
  (70464, 70464), (70502, 70508), (70512, 70516), (70712, 70719), (70722, 70724),
  (70726, 70726), (70750, 70750), (70835, 70840), (70842, 70842), (70847, 70848),
  (70850, 70851), (71090, 71093), (71100, 71101), (71103, 71104), (71132, 71133),
  (71219, 71226), (71229, 71229), (71231, 71232), (71339, 71339), (71341, 71341),
  (71344, 71349), (71351, 71351), (71453, 71455), (71458, 71461), (71463, 71467),
  (71727, 71735), (71737, 71738), (71995, 71996), (71998, 71998), (72003, 72003),
  (72148, 72151), (72154, 72155), (72160, 72160), (72193, 72202), (72243, 72248),
  (72251, 72254), (72263, 72263), (72273, 72278), (72281, 72283), (72330, 72342),
  (72344, 72345), (72752, 72758), (72760, 72765), (72767, 72767), (72850, 72871),
  (72874, 72880), (72882, 72883), (72885, 72886), (73009, 73014), (73018, 73018),
  (73020, 73021), (73023, 73029), (73031, 73031), (73104, 73105), (73109, 73109),
  (73111, 73111), (73459, 73460), (78896, 78904), (92912, 92916), (92976, 92982),
  (92992, 92995), (94031, 94031), (94095, 94111), (94176, 94177), (94179, 94180),
  (110576, 110579), (110581, 110587), (110589, 110590), (113821, 113822), (113824, 113827),
  (118528, 118573), (118576, 118598), (119143, 119145), (119155, 119170), (119173, 119179),
  (119210, 119213), (119362, 119364), (121344, 121398), (121403, 121452), (121461, 121461),
  (121476, 121476), (121499, 121503), (121505, 121519), (122880, 122886), (122888, 122904),
  (122907, 122913), (122915, 122916), (122918, 122922), (123184, 123197), (123566, 123566),
  (123628, 123631), (125136, 125142), (125252, 125259), (127995, 127999), (917505, 917505),
  (917536, 917631), (917760, 917999)
]

/-- All `Case_Ignorable` ranges. -/
def caseIgnorableRanges : List (Nat × Nat) :=
  ciRanges0 ++ ciRanges1 ++ ciRanges2

/-- Membership in the `Cased` property. -/
def isCased (n : Nat) : Bool :=
  casedRanges.any (fun r => decide (r.1 ≤ n) && decide (n ≤ r.2))

/-- Membership in the `Case_Ignorable` property. -/
def isCaseIgnorable (n : Nat) : Bool :=
  caseIgnorableRanges.any (fun r => decide (r.1 ≤ n) && decide (n ≤ r.2))

/-- Rust `str.rs` `case_ignorable_then_cased`: skip `Case_Ignorable` code
points, then test whether the next one is `Cased` (false when exhausted). -/
def caseIgnorableThenCased (l : Str) : Bool :=
  match l.dropWhile isCaseIgnorable with
  | [] => false
  | c :: _ => isCased c

/-- Rust `str::to_lowercase`, position by position; `prev` is the already
seen prefix in reverse order.  931 is `Σ`: per `map_uppercase_sigma` it maps
to `ς` (962) when the preceding context ends in a cased code point and the
following context does not begin with one (each after skipping
`Case_Ignorable` code points), and to `σ` (963) otherwise.  Every other code
point maps through `lowerCharMap`. -/
def toLowerAux : Str → Str → Str
  | _, [] => []
  | prev, c :: rest =>
    (if c = 931 then
      (if caseIgnorableThenCased prev && !caseIgnorableThenCased rest
       then [962] else [963])
     else lowerCharMap c) ++ toLowerAux (c :: prev) rest

/-- Rust `str::to_lowercase`. -/
def toLowerStr (s : Str) : Str := toLowerAux [] s

/-- `model.rs` `TodoItem::match_key`: `self.message.trim().to_lowercase()`. -/
def normalizeMsg (s : Str) : Str := toLowerStr (trimStr s)

/-- `model.rs` `enum Tag`. -/
inductive Tag where
  | Todo
  | Fixme
  | Hack
  | Xxx
  | Bug
  | Note
deriving DecidableEq

/-- `model.rs` `Tag::as_str` (also the `Display` impl used by `format!`):
`TODO`, `FIXME`, `HACK`, `XXX`, `BUG`, `NOTE` as code-point lists. -/
def Tag.toStr : Tag → Str
  | .Todo => [84, 79, 68, 79]
  | .Fixme => [70, 73, 88, 77, 69]
  | .Hack => [72, 65, 67, 75]
  | .Xxx => [88, 88, 88]
  | .Bug => [66, 85, 71]
  | .Note => [78, 79, 84, 69]

/-- `model.rs` `enum Priority`. -/
inductive Priority where
  | Normal
  | High
  | Urgent
deriving DecidableEq

/-- `model.rs` `struct TodoItem`. -/
structure TodoItem where
  file : Str
  line : Nat
  tag : Tag
  message : Str
  author : Option Str
  issue_ref : Option Str
  priority : Priority
deriving DecidableEq

/-- `model.rs` `TodoItem::match_key`:
`format!("{}:{}:{}", self.file, self.tag, self.message.trim().to_lowercase())`
(58 is the code point of the `:` separator). -/
def TodoItem.match_key (i : TodoItem) : Str :=
  i.file ++ 58 :: Tag.toStr i.tag ++ 58 :: normalizeMsg i.message

/-- `model.rs` `enum DiffStatus`. -/
inductive DiffStatus where
  | Added
  | Removed
deriving DecidableEq

/-- `model.rs` `struct DiffEntry`. -/
structure DiffEntry where
  status : DiffStatus
  item : TodoItem
deriving DecidableEq

/-- `model.rs` `struct DiffResult`. -/
structure DiffResult where
  entries : List DiffEntry
  added_count : Nat
  removed_count : Nat
  base_ref : Str
deriving DecidableEq

/-- `matches!(e.status, DiffStatus::Added)`. -/
def isAdded (e : DiffEntry) : Bool :=
  match e.status with
  | .Added => true
  | .Removed => false

/-- The identity keys of a snapshot (`items.iter().map(|i| i.match_key()).collect()`
into a `HashSet`, modelled as the list of keys with membership semantics). -/
def keysOf (l : List TodoItem) : List Str := l.map TodoItem.match_key

/-- The key-set diff algorithm of `diff.rs` `compute_diff` lines 103-126:
Added = current items whose key is absent from the base key set (pushed in
current order), then Removed = base items whose key is absent from the current
key set (pushed in base order). -/
def diffCore (baseItems currentItems : List TodoItem) : List DiffEntry :=
  (currentItems.filter
      (fun i => !decide (TodoItem.match_key i ∈ keysOf baseItems))).map
    (fun i => { status := .Added, item := i })
  ++ (baseItems.filter
      (fun i => !decide (TodoItem.match_key i ∈ keysOf currentItems))).map
    (fun i => { status := .Removed, item := i })

/-- `diff.rs` `compute_diff` lines 128-142: assemble the `DiffResult`, with
`added_count`/`removed_count` recomputed from the entries. -/
def mkDiffResult (entries : List DiffEntry) (base_ref : Str) : DiffResult :=
  { entries := entries
    added_count := (entries.filter isAdded).length
    removed_count := (entries.filter (fun e => !isAdded e)).length
    base_ref := base_ref }

/-- Rust `str::lines`, accumulator holds the current segment reversed:
split at `\n` (10), strip one `\r` (13) before each `\n`, and do not produce
a final empty line for a trailing line terminator. -/
def linesAux : Str → Str → List Str
  | [], acc => if acc = [] then [] else [acc.reverse]
  | c :: rest, acc =>
    if c = 10 then
      (if acc.head? = some 13 then acc.tail else acc).reverse :: linesAux rest []
    else
      linesAux rest (c :: acc)

/-- Rust `str::lines`. -/
def linesOf (s : Str) : List Str := linesAux s []

/-- The per-line path extraction applied to a git `--name-only` output:
`lines()`, `trim()`, keep the non-empty ones (`diff.rs` lines 37-42 and the
`base_files` construction in lines 72-76). -/
def trimmedPaths (out : Str) : List Str :=
  ((linesOf out).map trimStr).filter (fun p => !decide (p = []))

/-- The git subprocess oracle for one `compute_diff` invocation: the outcomes
of `ls-tree -r --name-only -- base_ref`, `diff --name-only -- base_ref`,
`diff --name-only`, and `show base_ref:path` for each path. -/
structure GitEnv where
  lsTree : Except Unit Str
  diffFromRef : Except Unit Str
  diffUnstaged : Except Unit Str
  showFile : Str → Except Unit Str

/-- `diff.rs` `detect_changed_files`: if both diff commands succeed, the set of
trimmed non-empty output lines plus every current-scan file absent from
`base_files`; otherwise the fallback union of `base_files` and all
current-scan files.  The `HashSet` is modelled as a list with membership
semantics. -/
def detect_changed_files (diffFromRef diffUnstaged : Except Unit Str)
    (base_files : List Str) (currentItems : List TodoItem) : List Str :=
  match diffFromRef, diffUnstaged with
  | .ok a, .ok b =>
    (trimmedPaths a ++ trimmedPaths b)
      ++ (currentItems.filter
            (fun i => !decide (i.file ∈ base_files))).map TodoItem.file
  | _, _ => base_files ++ currentItems.map TodoItem.file

/-- `diff.rs` `compute_diff`.  The scan collaborator is a parameter
`scan content path` (the compiled tag pattern is absorbed into it; the spec
treats `scan` as an external pure function).  The iteration over the
`changed_files` `HashSet` visits each distinct path once, modelled by
`List.dedup`.  45 is the code point of `-`. -/
def compute_diff (scan : Str → Str → List TodoItem) (env : GitEnv)
    (current : List TodoItem) (base_ref : Str) : Except Unit DiffResult :=
  if base_ref.head? = some 45 then .error () else
  match env.lsTree with
  | .error e => .error e
  | .ok file_list =>
    let base_files := trimmedPaths file_list
    let changed :=
      (detect_changed_files env.diffFromRef env.diffUnstaged base_files
        current).dedup
    let base_items := changed.flatMap (fun p =>
      if decide (p ∈ base_files) then
        match env.showFile p with
        | .ok c => scan c p
        | .error _ => []
      else [])
    let current_changed := current.filter (fun i => decide (i.file ∈ changed))
    .ok (mkDiffResult (diffCore base_items current_changed) base_ref)

/-- `cmd/diff.rs` `cmd_diff` lines 32-52: when the tag filter is non-empty,
retain only entries whose tag parses into the filter list and recompute both
counts from the retained entries.  `parse` stands for the `FromStr` parse of
a tag name (CLI collaborator). -/
def applyTagFilter (tag : List Str) (parse : Str → Option Tag)
    (r : DiffResult) : DiffResult :=
  if tag.isEmpty then r
  else
    let filter_tags := tag.filterMap parse
    let entries := r.entries.filter (fun e => decide (e.item.tag ∈ filter_tags))
    { entries := entries
      added_count := (entries.filter isAdded).length
      removed_count := (entries.filter (fun e => !isAdded e)).length
      base_ref := r.base_ref }

/-- `FileUpdate` as constructed and consumed in `watch.rs`
(`{added: Vec<TodoItem>, removed: Vec<TodoItem>}`). -/
structure FileUpdate where
  added : List TodoItem
  removed : List TodoItem
deriving DecidableEq

/-- The `HashMap<String, Vec<TodoItem>>` of `TodoIndex`, modelled as an
association list. -/
abbrev IndexMap := List (Str × List TodoItem)

/-- `HashMap::get` for the index. -/
def lookupIdx (m : IndexMap) (p : Str) : Option (List TodoItem) :=
  (m.find? (fun e => decide (e.1 = p))).map Prod.snd

/-- The map after `HashMap::remove(p)`. -/
def eraseKey (m : IndexMap) (p : Str) : IndexMap :=
  m.filter (fun e => !decide (e.1 = p))

/-- `HashMap::insert(p, v)`. -/
def insertKey (m : IndexMap) (p : Str) (v : List TodoItem) : IndexMap :=
  eraseKey m p ++ [(p, v)]

/-- One step of `TodoIndex::new`'s grouping loop:
`items.entry(item.file.clone()).or_default().push(item)`. -/
def pushItem : IndexMap → TodoItem → IndexMap
  | [], i => [(i.file, [i])]
  | (k, v) :: rest, i =>
    if k = i.file then (k, v ++ [i]) :: rest else (k, v) :: pushItem rest i

/-- `watch.rs` `TodoIndex::new`: group the full-scan items by file path.
The directory walk and pattern compilation are collaborators; the scan's item
list is the parameter. -/
def indexOfScan (items : List TodoItem) : IndexMap :=
  items.foldl pushItem []

/-- `watch.rs` `TodoIndex::total_count`. -/
def total_count (m : IndexMap) : Nat :=
  (m.map (fun e => e.2.length)).sum

/-- `scanner.rs` `MAX_FILE_SIZE`.  Modelled from the spec: the constant's
declaration is not among the provided sources ("a fixed safety ceiling");
the watch tests pin it at 10 MiB.  No claim depends on the value. -/
def MAX_FILE_SIZE : Nat := 10 * 1024 * 1024

/-- The file-system oracle for one `update_file` call: the outcome of
`fs::metadata` (its `len()`) and of `fs::read_to_string`. -/
structure FsFile where
  statSize : Except Unit Nat
  readContent : Except Unit Str

/-- `watch.rs` `TodoIndex::update_file`.  Returns the call's result together
with the resulting index map (the Rust method mutates `self.items` in place;
error returns happen before any mutation). -/
def update_file (scan : Str → Str → List TodoItem) (fs : FsFile)
    (m : IndexMap) (path : Str) : Except Unit FileUpdate × IndexMap :=
  match fs.statSize with
  | .error e => (.error e, m)
  | .ok size =>
    if MAX_FILE_SIZE < size then
      let removed := (lookupIdx m path).getD []
      (.ok { added := [], removed := removed }, eraseKey m path)
    else
      match fs.readContent with
      | .error e => (.error e, m)
      | .ok content =>
        let new_items := scan content path
        let old_items := (lookupIdx m path).getD []
        let added := new_items.filter
          (fun i => !decide (TodoItem.match_key i ∈ keysOf old_items))
        let removed := old_items.filter
          (fun i => !decide (TodoItem.match_key i ∈ keysOf new_items))
        let m2 := if new_items.isEmpty then eraseKey m path
                  else insertKey (eraseKey m path) path new_items
        (.ok { added := added, removed := removed }, m2)

/-- `watch.rs` `TodoIndex::remove_file`: evict the entry, returning the prior
items (empty if absent). -/
def remove_file (m : IndexMap) (path : Str) : List TodoItem × IndexMap :=
  ((lookupIdx m path).getD [], eraseKey m path)

/-- `watch.rs` `cmd_watch` line 253: a `FileUpdate` with no added and no
removed items is suppressed (the loop `continue`s without emitting an event). -/
def suppressed (u : FileUpdate) : Bool :=
  u.added.isEmpty && u.removed.isEmpty

/-- The index-emptiness invariant: no file path maps to an empty list. -/
def IndexInv (m : IndexMap) : Prop := ∀ e ∈ m, e.2 ≠ []

/-- Two annotations that differ at most in their line number. -/
def SameItemUpToLine (a b : TodoItem) : Prop :=
  a.file = b.file ∧ a.tag = b.tag ∧ a.message = b.message ∧
  a.author = b.author ∧ a.issue_ref = b.issue_ref ∧ a.priority = b.priority

/-- The count-consistency invariant of a `DiffResult`. -/
def countConsistent (r : DiffResult) : Prop :=
  r.added_count = (r.entries.filter isAdded).length ∧
  r.removed_count = (r.entries.filter (fun e => !isAdded e)).length ∧
  r.entries.length = r.added_count + r.removed_count

/-- Auxiliary for the match-key injectivity argument: `true` iff no ASCII
uppercase code point occurs strictly after a `:` (58) in the list. -/
def nuac : Str → Bool
  | [] => true
  | c :: rest =>
    if c = 58 then rest.all (fun d => !isUpperAscii d) else nuac rest

theorem length_filter_split (l : List α) (p : α → Bool) :
    (l.filter p).length + (l.filter (fun x => !p x)).length = l.length := by
  induction l with
  | nil => rfl
  | cons a l ih =>
    by_cases h : p a <;> simp [List.filter_cons, h, Nat.succ_eq_add_one] <;> omega

theorem countConsistent_mk (entries : List DiffEntry) (bref : Str) :
    countConsistent (mkDiffResult entries bref) :=
  ⟨rfl, rfl, (length_filter_split entries isAdded).symm⟩

/-- **C1** The key-set diff algorithm partitions exactly: its Added entries are
precisely the current annotations whose identity key is absent from the base
key set (one entry each, in order), its Removed entries are precisely the base
annotations whose key is absent from the current key set, and an annotation
whose key occurs in both snapshots never appears in the result. -/
theorem c1_diff_partition (base cur : List TodoItem) :
    ((diffCore base cur).filter isAdded).map DiffEntry.item
        = cur.filter (fun i => !decide (TodoItem.match_key i ∈ keysOf base))
    ∧ ((diffCore base cur).filter (fun e => !isAdded e)).map DiffEntry.item
        = base.filter (fun i => !decide (TodoItem.match_key i ∈ keysOf cur))
    ∧ ∀ e ∈ diffCore base cur,
        ¬(TodoItem.match_key e.item ∈ keysOf base ∧
          TodoItem.match_key e.item ∈ keysOf cur) := by
  refine ⟨?_, ?_, ?_⟩
  · simp [diffCore, List.filter_append, List.filter_map, Function.comp_def,
      isAdded, List.map_map]
  · simp [diffCore, List.filter_append, List.filter_map, Function.comp_def,
      isAdded, List.map_map]
  · intro e he
    rcases List.mem_append.1 he with h | h
    · rcases List.mem_map.1 h with ⟨i, hi, rfl⟩
      rcases List.mem_filter.1 hi with ⟨_, hcond⟩
      intro hboth
      simp at hcond
      exact hcond hboth.1
    · rcases List.mem_map.1 h with ⟨i, hi, rfl⟩
      rcases List.mem_filter.1 hi with ⟨_, hcond⟩
      intro hboth
      simp at hcond
      exact hcond hboth.2

theorem match_key_congr {a b : TodoItem} (h : SameItemUpToLine a b) :
    TodoItem.match_key a = TodoItem.match_key b := by
  obtain ⟨h1, h2, h3, -⟩ := h
  simp [TodoItem.match_key, h1, h2, h3]

theorem keysOf_eq_of_forall₂ {base cur : List TodoItem}
    (h : List.Forall₂ SameItemUpToLine base cur) : keysOf base = keysOf cur := by
  induction h with
  | nil => rfl
  | cons hab _ ih =>
    simp only [keysOf, List.map_cons] at *
    exact by rw [match_key_congr hab, ih]

theorem diffCore_eq_nil_of_keys_eq {base cur : List TodoItem}
    (h : keysOf base = keysOf cur) : diffCore base cur = [] := by
  have hc : cur.filter
      (fun i => !decide (TodoItem.match_key i ∈ keysOf base)) = [] := by
    refine List.filter_eq_nil_iff.2 fun i hi => ?_
    simp only [h]
    simp [keysOf]
    exact ⟨i, hi, rfl⟩
  have hb : base.filter
      (fun i => !decide (TodoItem.match_key i ∈ keysOf cur)) = [] := by
    refine List.filter_eq_nil_iff.2 fun i hi => ?_
    simp only [← h]
    simp [keysOf]
    exact ⟨i, hi, rfl⟩
  simp [diffCore, hc, hb]

/-- **C4** Diffing a snapshot against itself yields no entries; more generally,
if current differs from base only in line numbers (pointwise, file/tag/message
and all other fields unchanged), the assembled diff result has zero entries and
zero counts. -/
theorem c4_diff_idempotent :
    (∀ (S : List TodoItem) (bref : Str),
      diffCore S S = []
      ∧ (mkDiffResult (diffCore S S) bref).added_count = 0
      ∧ (mkDiffResult (diffCore S S) bref).removed_count = 0)
    ∧ (∀ (base cur : List TodoItem) (bref : Str),
      List.Forall₂ SameItemUpToLine base cur →
      diffCore base cur = []
      ∧ (mkDiffResult (diffCore base cur) bref).added_count = 0
      ∧ (mkDiffResult (diffCore base cur) bref).removed_count = 0) := by
  have main : ∀ (base cur : List TodoItem) (bref : Str),
      List.Forall₂ SameItemUpToLine base cur →
      diffCore base cur = []
      ∧ (mkDiffResult (diffCore base cur) bref).added_count = 0
      ∧ (mkDiffResult (diffCore base cur) bref).removed_count = 0 := by
    intro base cur bref h
    have hnil := diffCore_eq_nil_of_keys_eq (keysOf_eq_of_forall₂ h)
    refine ⟨hnil, ?_, ?_⟩ <;> simp [hnil, mkDiffResult]
  refine ⟨fun S bref => main S S bref ?_, main⟩
  exact List.forall₂_same.2 fun i _ => ⟨rfl, rfl, rfl, rfl, rfl, rfl⟩

theorem compute_diff_ok_shape {scan : Str → Str → List TodoItem} {env : GitEnv}
    {current : List TodoItem} {bref : Str} {r : DiffResult}
    (h : compute_diff scan env current bref = .ok r) :
    ∃ entries, r = mkDiffResult entries bref := by
  unfold compute_diff at h
  split at h
  · simp at h
  · split at h
    · simp at h
    · simp only [Except.ok.injEq] at h
      exact ⟨_, h.symm⟩

/-- **C5** Every `DiffResult` produced by `compute_diff`, and its rewrite by
`cmd_diff`'s tag filter, satisfies count consistency: `added_count` counts the
Added entries, `removed_count` counts the Removed entries, and the entry list
length is their sum. -/
theorem c5_count_consistency (scan : Str → Str → List TodoItem) (env : GitEnv)
    (current : List TodoItem) (bref : Str) (r : DiffResult)
    (h : compute_diff scan env current bref = .ok r)
    (tag : List Str) (parse : Str → Option Tag) :
    countConsistent r ∧ countConsistent (applyTagFilter tag parse r) := by
  obtain ⟨entries, rfl⟩ := compute_diff_ok_shape h
  refine ⟨countConsistent_mk entries bref, ?_⟩
  unfold applyTagFilter
  split
  · exact countConsistent_mk entries bref
  · exact ⟨rfl, rfl, (length_filter_split _ _).symm⟩

/-- Witness for C5: a concrete `compute_diff` run whose result (and its
tag-filtered rewrite) is count-consistent. -/
theorem c5_count_consistency_witness :
    countConsistent
      { entries := [], added_count := 0, removed_count := 0, base_ref := [104] }
    ∧ countConsistent (applyTagFilter [] (fun _ => none)
      { entries := [], added_count := 0, removed_count := 0, base_ref := [104] }) :=
  c5_count_consistency (fun _ _ => [])
    { lsTree := .ok [], diffFromRef := .ok [], diffUnstaged := .ok [],
      showFile := fun _ => .error () }
    [] [104]
    { entries := [], added_count := 0, removed_count := 0, base_ref := [104] }
    (by rfl) [] (fun _ => none)

/-- Witness for C4 at a concrete pair of one-item snapshots that differ only
in the line number. -/
theorem c4_diff_idempotent_witness :
    diffCore
      [{ file := [97], line := 1, tag := .Todo, message := [109],
         author := none, issue_ref := none, priority := .Normal }]
      [{ file := [97], line := 7, tag := .Todo, message := [109],
         author := none, issue_ref := none, priority := .Normal }] = []
    ∧ (mkDiffResult (diffCore
      [{ file := [97], line := 1, tag := .Todo, message := [109],
         author := none, issue_ref := none, priority := .Normal }]
      [{ file := [97], line := 7, tag := .Todo, message := [109],
         author := none, issue_ref := none, priority := .Normal }]) [104]).added_count = 0
    ∧ (mkDiffResult (diffCore
      [{ file := [97], line := 1, tag := .Todo, message := [109],
         author := none, issue_ref := none, priority := .Normal }]
      [{ file := [97], line := 7, tag := .Todo, message := [109],
         author := none, issue_ref := none, priority := .Normal }]) [104]).removed_count = 0 :=
  c4_diff_idempotent.2 _ _ [104]
    (List.Forall₂.cons ⟨rfl, rfl, rfl, rfl, rfl, rfl⟩ List.Forall₂.nil)


/-- **C2** When both diff-listing git commands succeed, the changed-file set of
`detect_changed_files` is exactly the union of the trimmed non-empty lines of
the two diff outputs and the current-scan files absent from the base listing;
and every entry of a successful `compute_diff` run references a file of that
set (the scan collaborator labels items with the scanned path). -/
theorem c2_changed_files (a b : Str) (base_files : List Str)
    (current : List TodoItem) :
    (∀ p : Str,
      p ∈ detect_changed_files (.ok a) (.ok b) base_files current ↔
        p ∈ trimmedPaths a ∨ p ∈ trimmedPaths b ∨
          ((∃ i ∈ current, i.file = p) ∧ p ∉ base_files))
    ∧ (∀ (scan : Str → Str → List TodoItem) (env : GitEnv)
        (cur : List TodoItem) (bref fl : Str) (r : DiffResult),
        (∀ c p i, i ∈ scan c p → i.file = p) →
        env.lsTree = .ok fl →
        compute_diff scan env cur bref = .ok r →
        ∀ e ∈ r.entries,
          e.item.file ∈ detect_changed_files env.diffFromRef env.diffUnstaged
            (trimmedPaths fl) cur) := by
  constructor
  · intro p
    simp only [detect_changed_files, List.mem_append, List.mem_map,
      List.mem_filter, Bool.not_eq_true', decide_eq_false_iff_not]
    constructor
    · rintro ((h | h) | ⟨i, ⟨hi, hnb⟩, rfl⟩)
      · exact Or.inl h
      · exact Or.inr (Or.inl h)
      · exact Or.inr (Or.inr ⟨⟨i, hi, rfl⟩, hnb⟩)
    · rintro (h | h | ⟨⟨i, hi, rfl⟩, hnb⟩)
      · exact Or.inl (Or.inl h)
      · exact Or.inl (Or.inr h)
      · exact Or.inr ⟨i, ⟨hi, hnb⟩, rfl⟩
  · intro scan env cur bref fl r hscan hls h e he
    unfold compute_diff at h
    split at h
    · simp at h
    · rw [hls] at h
      simp only [Except.ok.injEq] at h
      subst h
      simp only [mkDiffResult] at he
      rcases List.mem_append.1 he with hA | hR
      · rcases List.mem_map.1 hA with ⟨i, hi, rfl⟩
        obtain ⟨hiCC, -⟩ := List.mem_filter.1 hi
        obtain ⟨-, hch⟩ := List.mem_filter.1 hiCC
        exact List.mem_dedup.1 (of_decide_eq_true hch)
      · rcases List.mem_map.1 hR with ⟨i, hi, rfl⟩
        obtain ⟨hiBI, -⟩ := List.mem_filter.1 hi
        rcases List.mem_flatMap.1 hiBI with ⟨p, hp, hip⟩
        split at hip
        · split at hip
          · have := hscan _ _ _ hip
            simpa [this] using List.mem_dedup.1 hp
          · simp at hip
        · simp at hip

/-- **C9** When either diff-listing git command fails, `detect_changed_files`
returns (rather than propagating an error) the union of every base-listing
path and every current-scan file. -/
theorem c9_fallback (dRef dUns : Except Unit Str) (bf : List Str)
    (cur : List TodoItem)
    (h : (∃ e, dRef = .error e) ∨ (∃ e, dUns = .error e)) :
    ∀ p : Str, p ∈ detect_changed_files dRef dUns bf cur ↔
      p ∈ bf ∨ ∃ i ∈ cur, i.file = p := by
  intro p
  have hbody : detect_changed_files dRef dUns bf cur
      = bf ++ cur.map TodoItem.file := by
    rcases h with ⟨e, rfl⟩ | ⟨e, rfl⟩
    · rfl
    · cases dRef <;> rfl
  rw [hbody]
  simp [List.mem_append, List.mem_map]

/-- Witness for C9: concrete fallback run with one base path and one scanned
item. -/
theorem c9_fallback_witness :
    [97] ∈ detect_changed_files (.error ()) (.ok []) [[97]] [] ↔
      [97] ∈ [[97]] ∨ ∃ i ∈ ([] : List TodoItem), TodoItem.file i = [97] :=
  c9_fallback (.error ()) (.ok []) [[97]] [] (Or.inl ⟨(), rfl⟩) [97]

theorem lookupIdx_eraseKey (m : IndexMap) (p : Str) :
    lookupIdx (eraseKey m p) p = none := by
  have hfind : (eraseKey m p).find? (fun e => decide (e.1 = p)) = none := by
    rw [List.find?_eq_none]
    intro x hx
    obtain ⟨-, hcond⟩ := List.mem_filter.1 hx
    simpa using hcond
  simp [lookupIdx, hfind]

theorem IndexInv_eraseKey {m : IndexMap} (h : IndexInv m) (p : Str) :
    IndexInv (eraseKey m p) :=
  fun e he => h e (List.mem_filter.1 he).1

theorem IndexInv_insertKey {m : IndexMap} {v : List TodoItem}
    (h : IndexInv m) (p : Str) (hv : v ≠ []) : IndexInv (insertKey m p v) := by
  intro e he
  rcases List.mem_append.1 he with h1 | h1
  · exact IndexInv_eraseKey h p e h1
  · rcases List.mem_singleton.1 h1 with rfl
    exact hv

theorem IndexInv_pushItem {m : IndexMap} (h : IndexInv m) (i : TodoItem) :
    IndexInv (pushItem m i) := by
  induction m with
  | nil =>
    intro e he
    rcases List.mem_singleton.1 he with rfl
    simp
  | cons kv rest ih =>
    obtain ⟨k, v⟩ := kv
    intro e he
    unfold pushItem at he
    split at he
    · rcases List.mem_cons.1 he with rfl | htl
      · simp
      · exact h e (List.mem_cons_of_mem _ htl)
    · rcases List.mem_cons.1 he with rfl | htl
      · exact h _ (List.mem_cons_self _ _)
      · exact ih (fun e' he' => h e' (List.mem_cons_of_mem _ he')) e htl

theorem IndexInv_foldl {items : List TodoItem} :
    ∀ {m : IndexMap}, IndexInv m → IndexInv (items.foldl pushItem m) := by
  induction items with
  | nil => exact fun h => h
  | cons i rest ih => exact fun h => ih (IndexInv_pushItem h i)

/-- **C6** Index emptiness: the initial index, and any index produced by
`update_file` or `remove_file`, never maps a file path to an empty annotation
list; and after an `update_file` whose effective re-scan yields zero
annotations (oversized file, or a scan of the content returning nothing),
the index holds no entry for that path. -/
theorem c6_index_emptiness :
    (∀ items : List TodoItem, IndexInv (indexOfScan items))
    ∧ (∀ (scan : Str → Str → List TodoItem) (fs : FsFile) (m : IndexMap)
        (path : Str) (res : Except Unit FileUpdate) (m2 : IndexMap),
        IndexInv m → update_file scan fs m path = (res, m2) → IndexInv m2)
    ∧ (∀ (m : IndexMap) (path : Str),
        IndexInv m → IndexInv (remove_file m path).2)
    ∧ (∀ (scan : Str → Str → List TodoItem) (fs : FsFile) (m : IndexMap)
        (path : Str) (u : FileUpdate) (m2 : IndexMap) (n : Nat),
        update_file scan fs m path = (.ok u, m2) →
        fs.statSize = .ok n →
        (MAX_FILE_SIZE < n ∨ ∀ c, fs.readContent = .ok c → scan c path = []) →
        lookupIdx m2 path = none) := by
  refine ⟨?_, ?_, ?_, ?_⟩
  · intro items
    exact IndexInv_foldl (fun e he => absurd he (List.not_mem_nil e))
  · intro scan fs m path res m2 hInv h
    unfold update_file at h
    split at h
    · rcases h with ⟨-, rfl⟩
      exact hInv
    · split at h
      · rcases h with ⟨-, rfl⟩
        exact IndexInv_eraseKey hInv path
      · split at h
        · rcases h with ⟨-, rfl⟩
          exact hInv
        · rcases h with ⟨-, rfl⟩
          split
          · exact IndexInv_eraseKey hInv path
          · rename_i hne
            refine IndexInv_insertKey (IndexInv_eraseKey hInv path) path ?_
            simpa [List.isEmpty_iff] using hne
  · intro m path hInv
    exact IndexInv_eraseKey hInv path
  · intro scan fs m path u m2 n h hstat hcond
    unfold update_file at h
    rw [hstat] at h
    split at h
    · simp at h
    · rename_i size heq
      injection heq with heq
      subst heq
      split at h
      · rcases h with ⟨-, rfl⟩
        exact lookupIdx_eraseKey m path
      · rename_i hsize
        split at h
        · simp at h
        · rename_i c hread
          rcases hcond with hbig | hscan0
          · exact absurd hbig hsize
          · have hscan' : scan c path = [] := hscan0 c hread
            rw [hscan'] at h
            simp at h
            rcases h with ⟨-, rfl⟩
            exact lookupIdx_eraseKey m path

/-- Witness for C6: a concrete `update_file` whose re-scan finds nothing
leaves no entry for the path. -/
theorem c6_index_emptiness_witness :
    lookupIdx ([] : IndexMap) [97] = none :=
  c6_index_emptiness.2.2.2 (fun _ _ => [])
    { statSize := .ok 0, readContent := .ok [] }
    [([97], [{ file := [97], line := 1, tag := .Todo, message := [109],
               author := none, issue_ref := none, priority := .Normal }])]
    [97]
    { added := [],
      removed := [{ file := [97], line := 1, tag := .Todo, message := [109],
                    author := none, issue_ref := none, priority := .Normal }] }
    [] 0 (by rfl) rfl
    (Or.inr fun c hc => by cases hc; rfl)

/-- **C7** For an oversized file (stat succeeds with size above
`MAX_FILE_SIZE`), `update_file` succeeds regardless of the read outcome (the
body is never read): the returned `FileUpdate` removes the entire previously
indexed list and adds nothing, and the path's entry is gone from the index. -/
theorem c7_oversized (scan : Str → Str → List TodoItem)
    (rc : Except Unit Str) (m : IndexMap) (path : Str) (n : Nat)
    (h : MAX_FILE_SIZE < n) :
    update_file scan { statSize := .ok n, readContent := rc } m path
      = (.ok { added := [], removed := (lookupIdx m path).getD [] },
         eraseKey m path)
    ∧ lookupIdx (eraseKey m path) path = none := by
  refine ⟨?_, lookupIdx_eraseKey m path⟩
  unfold update_file
  simp [h]

/-- Witness for C7 at a concrete one-entry index and size ceiling + 1. -/
theorem c7_oversized_witness :
    update_file (fun _ _ => [])
      { statSize := .ok (MAX_FILE_SIZE + 1), readContent := .error () }
      [([97], [{ file := [97], line := 1, tag := .Todo, message := [109],
                 author := none, issue_ref := none, priority := .Normal }])]
      [97]
      = (.ok { added := [],
               removed := (lookupIdx
                 [([97], [{ file := [97], line := 1, tag := .Todo,
                            message := [109], author := none,
                            issue_ref := none,
                            priority := .Normal }])] [97]).getD [] },
         eraseKey
           [([97], [{ file := [97], line := 1, tag := .Todo, message := [109],
                      author := none, issue_ref := none,
                      priority := .Normal }])] [97])
    ∧ lookupIdx (eraseKey
        [([97], [{ file := [97], line := 1, tag := .Todo, message := [109],
                   author := none, issue_ref := none,
                   priority := .Normal }])] [97]) [97] = none :=
  c7_oversized (fun _ _ => []) (.error ()) _ [97] (MAX_FILE_SIZE + 1)
    (Nat.lt_succ_self _)

/-- **C8** If `update_file` fails to stat the file, or the file is not
oversized and the read fails, the call returns an error and the index is
exactly the one before the call. -/
theorem c8_error_preserves_index (scan : Str → Str → List TodoItem)
    (fs : FsFile) (m : IndexMap) (path : Str)
    (h : (∃ e, fs.statSize = .error e) ∨
      (∃ n e, fs.statSize = .ok n ∧ ¬ MAX_FILE_SIZE < n ∧
        fs.readContent = .error e)) :
    update_file scan fs m path = (.error (), m) := by
  rcases h with ⟨e, he⟩ | ⟨n, e, hn, hle, hr⟩
  · unfold update_file
    rw [he]
  · unfold update_file
    rw [hn]
    simp [hle, hr]

/-- Witness for C8: a failing stat leaves a concrete one-entry index
untouched. -/
theorem c8_error_preserves_index_witness :
    update_file (fun _ _ => [])
      { statSize := .error (), readContent := .error () }
      [([97], [{ file := [97], line := 1, tag := .Todo, message := [109],
                 author := none, issue_ref := none, priority := .Normal }])]
      [98]
      = (.error (),
         [([97], [{ file := [97], line := 1, tag := .Todo, message := [109],
                    author := none, issue_ref := none,
                    priority := .Normal }])]) :=
  c8_error_preserves_index (fun _ _ => [])
    { statSize := .error (), readContent := .error () } _ [98]
    (Or.inl ⟨(), rfl⟩)

set_option maxRecDepth 65536 in
/-- **C10** A successful `update_file` can report an empty delta (added and
removed both empty, so the watch loop suppresses the event) while the total
annotation count changes: two same-key annotations collapse to one.  Concrete
instance: the prior entry holds two identical-key items at lines 1 and 2, the
fresh scan yields one. -/
theorem c10_silent_count_change :
    update_file
      (fun _ _ => [{ file := [97], line := 1, tag := .Todo, message := [109],
                     author := none, issue_ref := none, priority := .Normal }])
      { statSize := .ok 0, readContent := .ok [] }
      [([97], [{ file := [97], line := 1, tag := .Todo, message := [109],
                 author := none, issue_ref := none, priority := .Normal },
               { file := [97], line := 2, tag := .Todo, message := [109],
                 author := none, issue_ref := none, priority := .Normal }])]
      [97]
      = (.ok { added := [], removed := [] },
         [([97], [{ file := [97], line := 1, tag := .Todo, message := [109],
                    author := none, issue_ref := none,
                    priority := .Normal }])])
    ∧ total_count
        [([97], [{ file := [97], line := 1, tag := .Todo, message := [109],
                   author := none, issue_ref := none,
                   priority := .Normal }])]
      ≠ total_count
        [([97], [{ file := [97], line := 1, tag := .Todo, message := [109],
                   author := none, issue_ref := none, priority := .Normal },
                 { file := [97], line := 2, tag := .Todo, message := [109],
                   author := none, issue_ref := none, priority := .Normal }])]
    ∧ suppressed { added := [], removed := [] } = true := by
  refine ⟨by rfl, by decide, rfl⟩

set_option maxRecDepth 65536 in
/-- Witness for C2: a concrete `compute_diff` run over one untracked file;
its single entry's file lies in the detected changed-file set. -/
theorem c2_changed_files_witness :
    ∀ e ∈ ({ entries := [{ status := .Added,
                           item := { file := [98], line := 1, tag := .Todo,
                                     message := [], author := none,
                                     issue_ref := none,
                                     priority := .Normal } }],
             added_count := 1, removed_count := 0,
             base_ref := [104] } : DiffResult).entries,
      e.item.file ∈ detect_changed_files (.ok []) (.ok []) (trimmedPaths [])
        [{ file := [98], line := 1, tag := .Todo, message := [],
           author := none, issue_ref := none, priority := .Normal }] :=
  (c2_changed_files [] [] [] []).2 (fun _ _ => [])
    { lsTree := .ok [], diffFromRef := .ok [], diffUnstaged := .ok [],
      showFile := fun _ => .error () }
    [{ file := [98], line := 1, tag := .Todo, message := [],
       author := none, issue_ref := none, priority := .Normal }]
    [104] [] _
    (fun _ _ i hi => absurd hi (List.not_mem_nil i)) rfl (by rfl)

set_option maxRecDepth 4096 in
theorem lowerPairs_no_upper : ∀ p ∈ lowerPairs, isUpperAscii p.2 = false := by
  have h0 : ∀ p ∈ lowerPairs0, isUpperAscii p.2 = false := by decide
  have h1 : ∀ p ∈ lowerPairs1, isUpperAscii p.2 = false := by decide
  have h2 : ∀ p ∈ lowerPairs2, isUpperAscii p.2 = false := by decide
  have h3 : ∀ p ∈ lowerPairs3, isUpperAscii p.2 = false := by decide
  have h4 : ∀ p ∈ lowerPairs4, isUpperAscii p.2 = false := by decide
  have h5 : ∀ p ∈ lowerPairs5, isUpperAscii p.2 = false := by decide
  have h6 : ∀ p ∈ lowerPairs6, isUpperAscii p.2 = false := by decide
  have h7 : ∀ p ∈ lowerPairs7, isUpperAscii p.2 = false := by decide
  intro p hp
  unfold lowerPairs at hp
  simp only [List.mem_append] at hp
  rcases hp with ((((((hp | hp) | hp) | hp) | hp) | hp) | hp) | hp
  · exact h0 p hp
  · exact h1 p hp
  · exact h2 p hp
  · exact h3 p hp
  · exact h4 p hp
  · exact h5 p hp
  · exact h6 p hp
  · exact h7 p hp

theorem lowerCharMap_no_upper (n : Nat) :
    ∀ d ∈ lowerCharMap n, isUpperAscii d = false := by
  intro d hd
  unfold lowerCharMap at hd
  by_cases h1 : 65 ≤ n ∧ n ≤ 90
  · rw [if_pos h1] at hd
    rcases List.mem_singleton.1 hd with rfl
    simp only [isUpperAscii, decide_eq_false_iff_not]
    omega
  · rw [if_neg h1] at hd
    by_cases h2 : n = 304
    · rw [if_pos h2] at hd
      simp at hd
      rcases hd with rfl | rfl <;> decide
    · rw [if_neg h2] at hd
      split at hd
      · rename_i p heq
        rcases List.mem_singleton.1 hd with rfl
        exact lowerPairs_no_upper p (List.mem_of_find?_eq_some heq)
      · rcases List.mem_singleton.1 hd with rfl
        simp only [isUpperAscii, decide_eq_false_iff_not]
        omega

theorem toLowerAux_no_upper (s prev : Str) :
    ∀ d ∈ toLowerAux prev s, isUpperAscii d = false := by
  induction s generalizing prev with
  | nil => intro d hd; exact absurd hd (List.not_mem_nil d)
  | cons c rest ih =>
    intro d hd
    unfold toLowerAux at hd
    rcases List.mem_append.1 hd with h | h
    · split at h
      · split at h
        · rcases List.mem_singleton.1 h with rfl
          decide
        · rcases List.mem_singleton.1 h with rfl
          decide
      · exact lowerCharMap_no_upper c d h
    · exact ih (c :: prev) d h

theorem normalizeMsg_no_upper (s : Str) :
    ∀ c ∈ normalizeMsg s, isUpperAscii c = false := by
  intro c hc
  unfold normalizeMsg toLowerStr at hc
  exact toLowerAux_no_upper (trimStr s) [] c hc

theorem tagStr_upper (t : Tag) : ∀ c ∈ Tag.toStr t, isUpperAscii c = true := by
  cases t <;> decide

theorem tagStr_ne_nil (t : Tag) : Tag.toStr t ≠ [] := by
  cases t <;> decide

theorem tagStr_inj {t₁ t₂ : Tag} (h : Tag.toStr t₁ = Tag.toStr t₂) :
    t₁ = t₂ := by
  cases t₁ <;> cases t₂ <;> revert h <;> decide

theorem upper_ne_colon {c : Nat} (h : isUpperAscii c = true) : c ≠ 58 := by
  unfold isUpperAscii at h
  simp at h
  omega

theorem append_colon_inj {t₁ m₁ t₂ m₂ : Str}
    (h₁ : ∀ c ∈ t₁, c ≠ 58) (h₂ : ∀ c ∈ t₂, c ≠ 58)
    (h : t₁ ++ 58 :: m₁ = t₂ ++ 58 :: m₂) : t₁ = t₂ ∧ m₁ = m₂ := by
  induction t₁ generalizing t₂ with
  | nil =>
    cases t₂ with
    | nil => simpa using h
    | cons d t₂' =>
      simp only [List.nil_append, List.cons_append, List.cons.injEq] at h
      exact absurd h.1.symm (h₂ d (List.mem_cons_self _ _))
  | cons c t₁' ih =>
    cases t₂ with
    | nil =>
      simp only [List.cons_append, List.nil_append, List.cons.injEq] at h
      exact absurd h.1 (h₁ c (List.mem_cons_self _ _))
    | cons d t₂' =>
      simp only [List.cons_append, List.cons.injEq] at h
      obtain ⟨rfl, htail⟩ := h
      obtain ⟨ht, hm⟩ := ih (fun x hx => h₁ x (List.mem_cons_of_mem _ hx))
        (fun x hx => h₂ x (List.mem_cons_of_mem _ hx)) htail
      exact ⟨by rw [ht], hm⟩

theorem nuac_cons_colon (m : Str) :
    nuac (58 :: m) = m.all (fun d => !isUpperAscii d) := by
  simp [nuac]

theorem nuac_cons_of_ne {c : Nat} (hc : c ≠ 58) (m : Str) :
    nuac (c :: m) = nuac m := by
  simp [nuac, hc]

theorem nuac_append_true {t m : Str} (ht : ∀ c ∈ t, c ≠ 58)
    (hm : ∀ c ∈ m, isUpperAscii c = false) : nuac (t ++ 58 :: m) = true := by
  induction t with
  | nil =>
    rw [List.nil_append, nuac_cons_colon, List.all_eq_true]
    intro d hd
    simp [hm d hd]
  | cons c t' ih =>
    rw [List.cons_append, nuac_cons_of_ne (ht c (List.mem_cons_self _ _))]
    exact ih (fun x hx => ht x (List.mem_cons_of_mem _ hx))

theorem nuac_append_false {f t m : Str}
    (ht : ∃ c ∈ t, isUpperAscii c = true) :
    nuac (f ++ 58 :: (t ++ 58 :: m)) = false := by
  induction f with
  | nil =>
    rw [List.nil_append, nuac_cons_colon, List.all_eq_false]
    rcases ht with ⟨c, hc, hup⟩
    exact ⟨c, List.mem_append_left _ hc, by simp [hup]⟩
  | cons c f' ih =>
    by_cases hc : c = 58
    · subst hc
      rw [List.cons_append, nuac_cons_colon, List.all_eq_false]
      rcases ht with ⟨x, hx, hup⟩
      refine ⟨x, ?_, by simp [hup]⟩
      exact List.mem_append_right _
        (List.mem_cons_of_mem _ (List.mem_append_left _ hx))
    · rw [List.cons_append, nuac_cons_of_ne hc]
      exact ih

theorem match_key_parts_inj {f₁ t₁ m₁ f₂ t₂ m₂ : Str}
    (ht₁ : ∀ c ∈ t₁, isUpperAscii c = true) (hn₁ : t₁ ≠ [])
    (ht₂ : ∀ c ∈ t₂, isUpperAscii c = true) (hn₂ : t₂ ≠ [])
    (hm₁ : ∀ c ∈ m₁, isUpperAscii c = false)
    (hm₂ : ∀ c ∈ m₂, isUpperAscii c = false)
    (h : f₁ ++ 58 :: (t₁ ++ 58 :: m₁) = f₂ ++ 58 :: (t₂ ++ 58 :: m₂)) :
    f₁ = f₂ ∧ t₁ = t₂ ∧ m₁ = m₂ := by
  have hcf₁ : ∀ c ∈ t₁, c ≠ 58 := fun c hc => upper_ne_colon (ht₁ c hc)
  have hcf₂ : ∀ c ∈ t₂, c ≠ 58 := fun c hc => upper_ne_colon (ht₂ c hc)
  induction f₁ generalizing f₂ with
  | nil =>
    cases f₂ with
    | nil =>
      simp only [List.nil_append, List.cons.injEq] at h
      obtain ⟨tt, mm⟩ := append_colon_inj hcf₁ hcf₂ h.2
      exact ⟨rfl, tt, mm⟩
    | cons d f₂' =>
      simp only [List.nil_append, List.cons_append, List.cons.injEq] at h
      obtain ⟨-, htail⟩ := h
      have htrue := nuac_append_true hcf₁ hm₁
      rw [htail] at htrue
      have hfalse : nuac (f₂' ++ 58 :: (t₂ ++ 58 :: m₂)) = false := by
        obtain ⟨x, hx⟩ := List.exists_mem_of_ne_nil t₂ hn₂
        exact nuac_append_false ⟨x, hx, ht₂ x hx⟩
      exact absurd (htrue.symm.trans hfalse) (by simp)
  | cons c f₁' ih =>
    cases f₂ with
    | nil =>
      simp only [List.nil_append, List.cons_append, List.cons.injEq] at h
      obtain ⟨-, htail⟩ := h
      have htrue := nuac_append_true hcf₂ hm₂
      rw [← htail] at htrue
      have hfalse : nuac (f₁' ++ 58 :: (t₁ ++ 58 :: m₁)) = false := by
        obtain ⟨x, hx⟩ := List.exists_mem_of_ne_nil t₁ hn₁
        exact nuac_append_false ⟨x, hx, ht₁ x hx⟩
      exact absurd (htrue.symm.trans hfalse) (by simp)
    | cons d f₂' =>
      simp only [List.cons_append, List.cons.injEq] at h
      obtain ⟨rfl, htail⟩ := h
      obtain ⟨ff, rest⟩ := ih htail
      exact ⟨by rw [ff], rest⟩

theorem match_key_flat (i : TodoItem) :
    TodoItem.match_key i
      = i.file ++ 58 :: (Tag.toStr i.tag ++ 58 :: normalizeMsg i.message) := by
  unfold TodoItem.match_key
  simp [List.append_assoc]

/-- **C3** Two annotations have equal match keys iff they agree on file, tag,
and normalized (trimmed, lowercased) message; the key never depends on line,
author, priority, or issue reference. -/
theorem c3_match_key_characterization :
    (∀ a b : TodoItem, TodoItem.match_key a = TodoItem.match_key b ↔
      a.file = b.file ∧ a.tag = b.tag ∧
        normalizeMsg a.message = normalizeMsg b.message)
    ∧ (∀ (a : TodoItem) (l : Nat) (au ir : Option Str) (pr : Priority),
      TodoItem.match_key
        { a with line := l, author := au, issue_ref := ir, priority := pr }
        = TodoItem.match_key a) := by
  constructor
  · intro a b
    constructor
    · intro h
      rw [match_key_flat a, match_key_flat b] at h
      obtain ⟨hf, ht, hm⟩ := match_key_parts_inj (tagStr_upper a.tag)
        (tagStr_ne_nil a.tag) (tagStr_upper b.tag) (tagStr_ne_nil b.tag)
        (normalizeMsg_no_upper a.message) (normalizeMsg_no_upper b.message) h
      exact ⟨hf, tagStr_inj ht, hm⟩
    · rintro ⟨hf, ht, hm⟩
      unfold TodoItem.match_key
      rw [hf, ht, hm]
  · intro a l au ir pr
    rfl
